import Mathlib

/-!
Dataflow job resource (`google/resource_dataflow_job.go`).

A shallow embedding of the Dataflow job resource of the Google provider: its
schema, the three lifecycle entry points (`resourceDataflowJobCreate`,
`resourceDataflowJobRead`, `resourceDataflowJobDelete`) and the deletion-policy
table `mapOnDelete`.

Modelling conventions.

* A Go `interface{}` value is a `Value`; a type assertion `x.(T)` without the
  comma-ok form is a function to `Option` whose `none` is the run-time panic.
* `*schema.ResourceData` is the stored id together with the stored attributes.
  `Get` reads through the schema of the resource: a declared key gives a value
  of its declared type (a string, an int, a `[]interface{}` for a `TypeList`
  key, a `map[string]interface{}` for a `TypeMap` key), the `Default` or the
  zero value when nothing is set; an undeclared key gives the nil interface.
* The Dataflow client is a record of response functions, one per endpoint. No
  entry point calls an endpoint twice, so one response per endpoint and
  argument describes a whole invocation. Every remote call is appended to the
  call log of the `Run`.
* A Go `error` is an `Error`; `nil` is `none`.
-/

namespace DataflowJob

/-! ## Values and errors -/

/-- A Go `error` value: one made by `fmt.Errorf`, or a `*googleapi.Error` carrying
the HTTP status code of a failed remote call. -/
inductive Error where
  | errorString (msg : String)
  | googleapi (code : Nat) (msg : String)
  deriving DecidableEq, Repr

/-- The text of an error, as `err.Error()` gives it (the `googleapi` prefix is
the one the client library prints). -/
def Error.message : Error → String
  | .errorString msg => msg
  | .googleapi code msg => "googleapi: Error " ++ toString code ++ ": " ++ msg

/-- A dynamic Go value (`interface{}`). `resourceData` is the dynamic type
`*schema.ResourceData`, which line 90 asserts; `Get` never hands it out. -/
inductive Value where
  | nil
  | str (s : String)
  | int (n : Int)
  | map (entries : List (String × Value))
  | list (items : List Value)
  | resourceData (id : String) (attrs : List (String × Value))

/-! ## The schema -/

/-- The constants `schema.TypeString`, `schema.TypeInt`, `schema.TypeList` and
`schema.TypeMap`. -/
inductive ValueType where
  | TypeString
  | TypeInt
  | TypeList
  | TypeMap
  deriving DecidableEq, Repr

/-- The validators the schema names. The pattern `DataflowJobRegex` is declared
elsewhere in the package, so `validateRegexp` carries the name of the constant. -/
inductive Validator where
  | validateRegexp (pattern : String)
  | StringInSlice (valid : List String) (ignoreCase : Bool)
  deriving DecidableEq, Repr

/-- A `schema.Schema` of a field inside a nested block. -/
structure ElemSchema where
  Typ : ValueType
  Required : Bool := false
  Optional : Bool := false
  ForceNew : Bool := false
  deriving DecidableEq, Repr

/-- A top-level `schema.Schema`; `Elem` lists the fields of a nested block. -/
structure Schema where
  Typ : ValueType
  Required : Bool := false
  Optional : Bool := false
  ForceNew : Bool := false
  Computed : Bool := false
  MaxItems : Nat := 0
  Default : Option String := none
  ValidateFunc : Option Validator := none
  Elem : List (String × ElemSchema) := []
  deriving DecidableEq, Repr

/-- The `Schema` map returned by `resourceDataflowJob`. -/
def resourceDataflowJob : List (String × Schema) :=
  [ ("name",
      { Typ := .TypeString, Required := true, ForceNew := true,
        ValidateFunc := some (.validateRegexp "DataflowJobRegex") }),
    ("project", { Typ := .TypeString, Optional := true, ForceNew := true }),
    ("template_gcs_path", { Typ := .TypeString, Required := true, ForceNew := true }),
    ("environment",
      { Typ := .TypeList, Optional := true, ForceNew := true, MaxItems := 1,
        Elem :=
          [ ("temp_gcs_location", { Typ := .TypeString, Required := true, ForceNew := true }),
            ("zone", { Typ := .TypeString, Required := true, ForceNew := true }),
            ("max_workers", { Typ := .TypeInt, Optional := true, ForceNew := true }) ] }),
    ("parameters", { Typ := .TypeMap, Optional := true, ForceNew := true }),
    ("on_delete",
      { Typ := .TypeString,
        ValidateFunc := some (.StringInSlice ["cancel", "drain"] false),
        Optional := true, Default := some "drain", ForceNew := true }),
    ("state", { Typ := .TypeString, Computed := true }) ]

/-- The schema of one top-level key, if the resource declares it. -/
def schemaOf (key : String) : Option Schema :=
  resourceDataflowJob.lookup key

/-- The check done by `validation.StringInSlice(valid, ignoreCase)` on a string:
an exact match with a member of `valid`, or a match of the lower-cased strings
when `ignoreCase` is set. -/
def StringInSlice (valid : List String) (ignoreCase : Bool) (v : String) : Bool :=
  valid.any (fun str => v == str || (ignoreCase && v.toLower == str.toLower))

/-- Whether the `ValidateFunc` of a top-level key accepts the string `v`. A key
without a validator accepts every string; `regexp` decides the pattern named
by a `validateRegexp` validator. -/
def validateFuncAccepts (regexp : String → String → Bool) (key : String) (v : String) : Bool :=
  match schemaOf key with
  | none => false
  | some s =>
    match s.ValidateFunc with
    | none => true
    | some (.validateRegexp pattern) => regexp pattern v
    | some (.StringInSlice valid ignoreCase) => StringInSlice valid ignoreCase v

/-- The `Default` of a top-level key, if it has one. -/
def schemaDefault (key : String) : Option String :=
  (schemaOf key).bind (fun s => s.Default)

/-- Whether a value has the Go type a schema type stands for: `string`, `int`,
`[]interface{}` or `map[string]interface{}`. -/
def hasType : ValueType → Value → Bool
  | .TypeString, .str _ => true
  | .TypeInt, .int _ => true
  | .TypeList, .list _ => true
  | .TypeMap, .map _ => true
  | _, _ => false

/-- The zero value of a schema type, which `Get` hands out for a declared key
that is not set and has no `Default`. -/
def zeroValue : ValueType → Value
  | .TypeString => .str ""
  | .TypeInt => .int 0
  | .TypeList => .list []
  | .TypeMap => .map []

/-- Whether the attributes of an `environment` block are accepted by the `Elem`
schema of the `environment` key: every attribute is declared and has the
declared type, and every required field is there. -/
def environmentBlockAccepted (attrs : List (String × Value)) : Bool :=
  match schemaOf "environment" with
  | none => false
  | some s =>
    attrs.all (fun kv =>
      match s.Elem.lookup kv.1 with
      | some e => hasType e.Typ kv.2
      | none => false)
    && s.Elem.all (fun ke => !ke.2.Required || attrs.any (fun kv => kv.1 == ke.1))

/-! ## Resource data -/

/-- The `*schema.ResourceData` of one Dataflow job: the stored id and the stored
attributes. -/
structure ResourceData where
  id : String
  attrs : List (String × Value)

/-- The value stored under a key; the nil interface when nothing is stored. -/
def lookupAttr (key : String) : List (String × Value) → Value
  | [] => Value.nil
  | (k, v) :: rest => if k = key then v else lookupAttr key rest

/-- The call `d.Get(key)`, read through the schema `resourceDataflowJob`: the
stored value when it has the declared type of the key, otherwise the `Default`
of the key or the zero value of its type; the nil interface for a key the
schema does not declare. -/
def ResourceData.Get (d : ResourceData) (key : String) : Value :=
  match schemaOf key with
  | none => .nil
  | some s =>
    if hasType s.Typ (lookupAttr key d.attrs) then lookupAttr key d.attrs
    else
      match s.Default with
      | some v => .str v
      | none => zeroValue s.Typ

/-- The call `d.Id()`. -/
def ResourceData.Id (d : ResourceData) : String := d.id

/-- The call `d.SetId(v)`. -/
def ResourceData.SetId (d : ResourceData) (v : String) : ResourceData :=
  { d with id := v }

/-- The call `d.Set(key, value)`: the stored attribute is replaced, nothing else
moves. -/
def ResourceData.Set (d : ResourceData) (key : String) (value : Value) : ResourceData :=
  { d with attrs := (key, value) :: d.attrs.filter (fun kv => kv.1 != key) }

/-- The type assertion `v.(string)`; `none` is the panic. -/
def Value.assertString : Value → Option String
  | .str s => some s
  | _ => none

/-- The type assertion `v.(int)`; `none` is the panic. -/
def Value.assertInt : Value → Option Int
  | .int n => some n
  | _ => none

/-- The type assertion `v.(*schema.ResourceData)`; `none` is the panic. -/
def Value.assertResourceData : Value → Option ResourceData
  | .resourceData id attrs => some ⟨id, attrs⟩
  | _ => none

/-- The conversion `int64(n)`: the value reduced into the signed 64-bit range. -/
def int64 (n : Int) : Int :=
  (n + 2 ^ 63) % 2 ^ 64 - 2 ^ 63

/-! ## The remote API -/

/-- The fields of `dataflow.RuntimeEnvironment` the resource fills in. -/
structure RuntimeEnvironment where
  TempLocation : String
  Zone : String
  MaxWorkers : Int
  deriving DecidableEq, Repr

/-- The type `dataflow.CreateJobFromTemplateRequest`; `Environment` is a pointer. -/
structure CreateJobFromTemplateRequest where
  JobName : String
  GcsPath : String
  Parameters : List (String × String)
  Environment : Option RuntimeEnvironment
  deriving DecidableEq, Repr

/-- The fields of `dataflow.Job` the resource reads or writes. -/
structure Job where
  Id : String
  CurrentState : String
  RequestedState : String
  deriving DecidableEq, Repr

/-- One remote call, with its arguments. -/
inductive Call where
  | templatesCreate (project : String) (request : CreateJobFromTemplateRequest)
  | jobsGet (project : String) (id : String)
  | jobsUpdate (project : String) (id : String) (job : Job)
  deriving DecidableEq, Repr

/-- The Dataflow client `config.clientDataflow`: what each endpoint answers. -/
structure Service where
  templatesCreate : String → CreateJobFromTemplateRequest → Except Error Job
  jobsGet : String → String → Except Error Job
  jobsUpdate : String → String → Job → Except Error Job

/-- The provider configuration `*Config`: the ambient project and the client. -/
structure Config where
  Project : String
  clientDataflow : Service

/-- How an entry point ends: it returns an `error` (possibly nil), or it panics. -/
inductive Outcome where
  | returned (err : Option Error)
  | panicked
  deriving DecidableEq, Repr

/-- One invocation of an entry point: how it ended, the resource data it leaves
and the remote calls it issued, in order. -/
structure Run where
  outcome : Outcome
  d : ResourceData
  calls : List Call

/-! ## The deletion-policy table -/

/-- The function `mapOnDelete`. -/
def mapOnDelete (policy : String) : Except Error String :=
  if policy = "cancel" then .ok "JOB_STATE_CANCELLED"
  else if policy = "done" then .ok "JOB_STATE_DONE"
  else if policy = "drain" then .ok "JOB_STATE_DRAINING"
  else .error (.errorString ("Invalid `on_delete` policy: " ++ policy))

/-! ## Helpers of the package that live outside the source file -/

/-- Modelled from the spec: `getProject` is a helper of this package that is not
in the source file. It "resolves the effective project (explicit field or
ambient default)"; when there is neither, resolution fails with an error. -/
def getProject (d : ResourceData) (config : Config) : Except Error String :=
  match d.Get "project" with
  | .str p =>
    if p = "" then
      if config.Project = "" then .error (.errorString "project: required field is not set")
      else .ok config.Project
    else .ok p
  | _ =>
    if config.Project = "" then .error (.errorString "project: required field is not set")
    else .ok config.Project

/-- Modelled from the spec: `expandStringMap` is a helper of this package that is
not in the source file. It hands out the string-to-string mapping configured
under `key`, "passed through opaquely"; an unset key is the empty mapping. -/
def expandStringMap (d : ResourceData) (key : String) : List (String × String) :=
  match d.Get key with
  | .map entries =>
    entries.filterMap (fun kv =>
      match kv.2 with
      | .str s => some (kv.1, s)
      | _ => none)
  | _ => []

/-- Modelled from the spec: the "not found" class of remote error that
`handleNotFoundError` tests for, taken to be a `googleapi` error with status 404. -/
def isNotFound : Error → Bool
  | .googleapi code _ => code == 404
  | .errorString _ => false

/-- Modelled from the spec: `handleNotFoundError` is a helper of this package that
is not in the source file. A "not found" class of remote error "is translated
into removal of the resource from tracked state" (the id is cleared) and no
error is returned; "any other error is surfaced as a failure of the read". The
spec does not fix the text of that failure; here it names the resource. -/
def handleNotFoundError (err : Error) (d : ResourceData) (resource : String) :
    Option Error × ResourceData :=
  if isNotFound err then (none, d.SetId "")
  else (some (.errorString ("Error reading " ++ resource ++ ": " ++ err.message)), d)

/-! ## The entry points -/

/-- Lines 88 to 106 of `resourceDataflowJobCreate`: the reads of the configuration
and the request built from them. `none` is a panic of one of the type
assertions. -/
def createRequest (d : ResourceData) : Option CreateJobFromTemplateRequest := do
  let name ← (d.Get "name").assertString
  let gcsPath ← (d.Get "template_gcs_path").assertString
  let tempLocation ←
    ((← (d.Get "environment").assertResourceData).Get "template_gcs_location").assertString
  let zone ← ((← (d.Get "environment").assertResourceData).Get "zone").assertString
  let maxWorkers ← ((← (d.Get "environment").assertResourceData).Get "max_workers").assertInt
  let params := expandStringMap d "parameters"
  let env : RuntimeEnvironment :=
    { TempLocation := tempLocation, Zone := zone, MaxWorkers := int64 maxWorkers }
  let request : CreateJobFromTemplateRequest :=
    { JobName := name, GcsPath := gcsPath, Parameters := params, Environment := some env }
  pure request

/-- The function `resourceDataflowJobRead`. -/
def resourceDataflowJobRead (d : ResourceData) (config : Config) : Run :=
  match getProject d config with
  | .error err => ⟨.returned (some err), d, []⟩
  | .ok project =>
    let id := d.Id
    match config.clientDataflow.jobsGet project id with
    | .error err =>
      let r := handleNotFoundError err d ("Dataflow job " ++ id)
      ⟨.returned r.1, r.2, [.jobsGet project id]⟩
    | .ok job =>
      ⟨.returned none, d.Set "state" (.str job.CurrentState), [.jobsGet project id]⟩

/-- Lines 108 to 115 of `resourceDataflowJobCreate`: the remote create call with
the request built before it, the id stored from its answer and the read that
follows. -/
def createFromRequest (d : ResourceData) (config : Config) (project : String)
    (request : CreateJobFromTemplateRequest) : Run :=
  match config.clientDataflow.templatesCreate project request with
  | .error err => ⟨.returned (some err), d, [.templatesCreate project request]⟩
  | .ok job =>
    let r := resourceDataflowJobRead (d.SetId job.Id) config
    ⟨r.outcome, r.d, .templatesCreate project request :: r.calls⟩

/-- The function `resourceDataflowJobCreate`. -/
def resourceDataflowJobCreate (d : ResourceData) (config : Config) : Run :=
  match getProject d config with
  | .error err => ⟨.returned (some err), d, []⟩
  | .ok project =>
    match createRequest d with
    | none => ⟨.panicked, d, []⟩
    | some request => createFromRequest d config project request

/-- The function `resourceDataflowJobDelete`. -/
def resourceDataflowJobDelete (d : ResourceData) (config : Config) : Run :=
  match getProject d config with
  | .error err => ⟨.returned (some err), d, []⟩
  | .ok project =>
    let id := d.Id
    match (d.Get "on_delete").assertString with
    | none => ⟨.panicked, d, []⟩
    | some policy =>
      match mapOnDelete policy with
      | .error err => ⟨.returned (some err), d, []⟩
      | .ok requestedState =>
        let job : Job := { Id := "", CurrentState := "", RequestedState := requestedState }
        match config.clientDataflow.jobsUpdate project id job with
        | .error err => ⟨.returned (some err), d, [.jobsUpdate project id job]⟩
        | .ok _ => ⟨.returned none, d, [.jobsUpdate project id job]⟩

/-! ## Facts about the embedding -/

theorem getProject_SetId (d : ResourceData) (config : Config) (v : String) :
    getProject (d.SetId v) config = getProject d config := rfl

theorem lookupAttr_filter_ne (key k : String) (hk : k ≠ key) (attrs : List (String × Value)) :
    lookupAttr k (attrs.filter (fun kv => kv.1 != key)) = lookupAttr k attrs := by
  induction attrs with
  | nil => rfl
  | cons kv rest ih =>
    obtain ⟨k1, v1⟩ := kv
    by_cases h1 : k1 = key
    · have h2 : ¬ k1 = k := fun h => hk (h ▸ h1)
      rw [List.filter_cons_of_neg (by simp [h1]), ih]
      simp [lookupAttr, h2]
    · rw [List.filter_cons_of_pos (by simp [h1])]
      simp only [lookupAttr, ih]

theorem Get_Set_state (d : ResourceData) (v : String) :
    (d.Set "state" (.str v)).Get "state" = .str v := by
  have hs : schemaOf "state" = some { Typ := .TypeString, Computed := true } := rfl
  simp [ResourceData.Set, ResourceData.Get, hs, lookupAttr, hasType]

theorem Get_Set_other (d : ResourceData) (key k : String) (value : Value) (hk : k ≠ key) :
    (d.Set key value).Get k = d.Get k := by
  have h : ¬ key = k := fun h => hk h.symm
  have hlook : lookupAttr k (d.Set key value).attrs = lookupAttr k d.attrs := by
    simp only [ResourceData.Set, lookupAttr, h, if_false]
    exact lookupAttr_filter_ne key k hk d.attrs
  unfold ResourceData.Get
  rw [hlook]

theorem Get_environment_list (d : ResourceData) :
    ∃ items, d.Get "environment" = .list items := by
  have hs : schemaOf "environment" = some
      { Typ := .TypeList, Optional := true, ForceNew := true, MaxItems := 1,
        Elem :=
          [ ("temp_gcs_location", { Typ := .TypeString, Required := true, ForceNew := true }),
            ("zone", { Typ := .TypeString, Required := true, ForceNew := true }),
            ("max_workers", { Typ := .TypeInt, Optional := true, ForceNew := true }) ] } := rfl
  unfold ResourceData.Get
  rw [hs]
  cases h : lookupAttr "environment" d.attrs <;> simp [hasType, zeroValue]

theorem Get_on_delete_unset (id : String) :
    (⟨id, []⟩ : ResourceData).Get "on_delete" = .str "drain" := rfl

theorem environment_read_key_undeclared :
    (schemaOf "environment").map (fun s => (s.Elem.lookup "temp_gcs_location").isSome)
      = some true ∧
    (schemaOf "environment").map (fun s => (s.Elem.lookup "template_gcs_location").isSome)
      = some false :=
  ⟨rfl, rfl⟩

theorem mapOnDelete_error_iff (p : String) :
    (∃ e, mapOnDelete p = .error e) ↔ (p ≠ "cancel" ∧ p ≠ "done" ∧ p ≠ "drain") := by
  unfold mapOnDelete
  by_cases h1 : p = "cancel"
  · simp [h1]
  · by_cases h2 : p = "done"
    · simp [h2]
    · by_cases h3 : p = "drain"
      · simp [h3]
      · simp [h1, h2, h3]

theorem StringInSlice_exact (valid : List String) (p : String) :
    StringInSlice valid false p = true ↔ p ∈ valid := by
  simp [StringInSlice, List.any_eq_true]

theorem validateFuncAccepts_on_delete (regexp : String → String → Bool) (p : String) :
    validateFuncAccepts regexp "on_delete" p = StringInSlice ["cancel", "drain"] false p := rfl

theorem mapOnDelete_default_case (p : String)
    (h1 : p ≠ "cancel") (h2 : p ≠ "done") (h3 : p ≠ "drain") :
    mapOnDelete p = .error (.errorString ("Invalid `on_delete` policy: " ++ p)) := by
  unfold mapOnDelete
  rw [if_neg h1, if_neg h2, if_neg h3]

theorem read_run_found (d : ResourceData) (config : Config) (P : String) (job : Job)
    (hP : getProject d config = .ok P)
    (hget : config.clientDataflow.jobsGet P d.Id = .ok job) :
    resourceDataflowJobRead d config
      = ⟨.returned none, d.Set "state" (.str job.CurrentState), [.jobsGet P d.Id]⟩ := by
  unfold resourceDataflowJobRead
  simp only [hP, hget]

theorem read_run_failed (d : ResourceData) (config : Config) (P : String) (e : Error)
    (hP : getProject d config = .ok P)
    (hget : config.clientDataflow.jobsGet P d.Id = .error e) :
    resourceDataflowJobRead d config
      = ⟨.returned (handleNotFoundError e d ("Dataflow job " ++ d.Id)).1,
          (handleNotFoundError e d ("Dataflow job " ++ d.Id)).2, [.jobsGet P d.Id]⟩ := by
  unfold resourceDataflowJobRead
  simp only [hP, hget]

theorem handleNotFoundError_notFound (e : Error) (d : ResourceData) (resource : String)
    (hnf : isNotFound e = true) :
    handleNotFoundError e d resource = (none, d.SetId "") := by
  simp [handleNotFoundError, hnf]

theorem handleNotFoundError_other (e : Error) (d : ResourceData) (resource : String)
    (hnf : isNotFound e = false) :
    handleNotFoundError e d resource
      = (some (.errorString ("Error reading " ++ resource ++ ": " ++ e.message)), d) := by
  simp [handleNotFoundError, hnf]

theorem int64_of_inRange (n : Int) (hlo : -2 ^ 63 ≤ n) (hhi : n < 2 ^ 63) : int64 n = n := by
  unfold int64
  omega

theorem createRequest_of_list_environment (d : ResourceData) (items : List Value)
    (henv : d.Get "environment" = .list items) :
    createRequest d = none := by
  unfold createRequest
  cases (d.Get "name").assertString with
  | none => rfl
  | some name =>
    cases (d.Get "template_gcs_path").assertString with
    | none => rfl
    | some gcsPath =>
      simp [henv, Value.assertResourceData]

theorem createRequest_panics (d : ResourceData) : createRequest d = none := by
  obtain ⟨items, henv⟩ := Get_environment_list d
  exact createRequest_of_list_environment d items henv

theorem create_issues_no_call (d : ResourceData) (config : Config) :
    (resourceDataflowJobCreate d config).calls = [] ∧
    (resourceDataflowJobCreate d config).d = d ∧
    ((∃ e, getProject d config = .error e ∧
        (resourceDataflowJobCreate d config).outcome = .returned (some e)) ∨
      (∃ P, getProject d config = .ok P ∧
        (resourceDataflowJobCreate d config).outcome = .panicked)) := by
  cases hP : getProject d config with
  | error err =>
    have hrun : resourceDataflowJobCreate d config = ⟨.returned (some err), d, []⟩ := by
      unfold resourceDataflowJobCreate
      simp only [hP]
    rw [hrun]
    exact ⟨rfl, rfl, Or.inl ⟨err, rfl, rfl⟩⟩
  | ok project =>
    have hrun : resourceDataflowJobCreate d config = ⟨.panicked, d, []⟩ := by
      unfold resourceDataflowJobCreate
      simp only [hP, createRequest_panics d]
    rw [hrun]
    exact ⟨rfl, rfl, Or.inr ⟨project, rfl, rfl⟩⟩

theorem createFromRequest_failure (d : ResourceData) (config : Config) (P : String)
    (request : CreateJobFromTemplateRequest) (e : Error)
    (hfail : config.clientDataflow.templatesCreate P request = .error e) :
    createFromRequest d config P request
      = ⟨.returned (some e), d, [.templatesCreate P request]⟩ := by
  unfold createFromRequest
  simp only [hfail]

theorem createFromRequest_success (d : ResourceData) (config : Config) (P : String)
    (request : CreateJobFromTemplateRequest) (job found : Job)
    (hP : getProject d config = .ok P)
    (hok : config.clientDataflow.templatesCreate P request = .ok job)
    (hget : config.clientDataflow.jobsGet P job.Id = .ok found) :
    createFromRequest d config P request
      = ⟨.returned none, (d.SetId job.Id).Set "state" (.str found.CurrentState),
          [.templatesCreate P request, .jobsGet P job.Id]⟩ := by
  have hP1 : getProject (d.SetId job.Id) config = .ok P := by
    rw [getProject_SetId]; exact hP
  unfold createFromRequest
  simp only [hok]
  rw [read_run_found (d.SetId job.Id) config P found hP1 hget]
  rfl

/-! ## The deletion-policy table: claims C1 and C2 -/

/-- C1: `mapOnDelete` implements the fixed table: "cancel" gives
"JOB_STATE_CANCELLED", "drain" gives "JOB_STATE_DRAINING" and "done" gives
"JOB_STATE_DONE", each with no error. -/
theorem mapOnDelete_table :
    mapOnDelete "cancel" = .ok "JOB_STATE_CANCELLED" ∧
    mapOnDelete "drain" = .ok "JOB_STATE_DRAINING" ∧
    mapOnDelete "done" = .ok "JOB_STATE_DONE" :=
  ⟨rfl, rfl, rfl⟩

/-- C2 as stated fails: "done" is outside the valid set of "cancel" and "drain",
yet `mapOnDelete` maps it to "JOB_STATE_DONE" and returns no error. -/
theorem mapOnDelete_outside_valid_set_counterexample :
    ¬ (∀ p : String, p ≠ "cancel" → p ≠ "drain" → ∃ e, mapOnDelete p = .error e) := by
  intro h
  obtain ⟨e, he⟩ := h "done" (by decide) (by decide)
  have hdone : mapOnDelete "done" = .ok "JOB_STATE_DONE" := rfl
  rw [hdone] at he
  cases he

/-- C2, amended: for every string `p` other than "cancel", "done" and "drain",
`mapOnDelete p` returns an error, whose text is "Invalid `on_delete` policy: "
followed by `p`. -/
theorem mapOnDelete_unrecognized (p : String)
    (h1 : p ≠ "cancel") (h2 : p ≠ "done") (h3 : p ≠ "drain") :
    mapOnDelete p = .error (.errorString ("Invalid `on_delete` policy: " ++ p)) := by
  simp [mapOnDelete, h1, h2, h3]

theorem mapOnDelete_unrecognized_witness :
    mapOnDelete "pause" = .error (.errorString ("Invalid `on_delete` policy: " ++ "pause")) :=
  mapOnDelete_unrecognized "pause" (by decide) (by decide) (by decide)

/-! ## Sample inputs -/

/-- A client that accepts everything: creation answers with the job id
"2024-job-1", a read reports "JOB_STATE_RUNNING", an update echoes the request. -/
def acceptingService : Service where
  templatesCreate := fun _ _ => .ok ⟨"2024-job-1", "JOB_STATE_PENDING", ""⟩
  jobsGet := fun _ id => .ok ⟨id, "JOB_STATE_RUNNING", ""⟩
  jobsUpdate := fun _ id job => .ok ⟨id, "JOB_STATE_RUNNING", job.RequestedState⟩

/-- A client behind which the job is gone and creation is refused: creation
fails with status 403, a read and an update with status 404. -/
def refusingService : Service where
  templatesCreate := fun _ _ => .error (.googleapi 403 "permission denied")
  jobsGet := fun _ _ => .error (.googleapi 404 "not found")
  jobsUpdate := fun _ _ _ => .error (.googleapi 404 "not found")

/-- A stored job "job-1" with deletion policy "drain" and no project of its own. -/
def drainJob : ResourceData :=
  ⟨"job-1", [("name", .str "wordcount"), ("on_delete", .str "drain")]⟩

/-- A stored job "job-1" whose deletion policy is the unrecognized "pause". -/
def pauseJob : ResourceData :=
  ⟨"job-1", [("name", .str "wordcount"), ("on_delete", .str "pause")]⟩

/-- An `environment` block with the fields the schema declares. -/
def declaredEnvironment : List (String × Value) :=
  [("temp_gcs_location", .str "gs://bucket/tmp"), ("zone", .str "us-central1-a"),
    ("max_workers", .int 3)]

/-- A new job with the declared `environment` block stored as a nested resource
data, the dynamic type line 90 asserts. `Get` does not hand such a value out:
the key reads as a list. -/
def declaredJob : ResourceData :=
  ⟨"", [("name", .str "wordcount"),
    ("template_gcs_path", .str "gs://dataflow-templates/wordcount"),
    ("environment", .resourceData "" declaredEnvironment),
    ("parameters", .map [("inputFile", .str "gs://bucket/in.txt")]),
    ("on_delete", .str "drain")]⟩

/-- A new job as the schema accepts it: the `environment` is a list of one block
with the declared fields, the value of a `TypeList` key. -/
def declaredListJob : ResourceData :=
  ⟨"", [("name", .str "wordcount"),
    ("template_gcs_path", .str "gs://dataflow-templates/wordcount"),
    ("environment", .list [.map declaredEnvironment]),
    ("parameters", .map [("inputFile", .str "gs://bucket/in.txt")]),
    ("on_delete", .str "drain")]⟩

/-! ## Delete: claims C3, C4 and C10 -/

/-- C3: with stored id `i`, resolved project `P` and policy "drain" (respectively
"cancel"), `resourceDataflowJobDelete` issues exactly one remote call, the
`Jobs.Update(P, i, job)` whose `job.RequestedState` is "JOB_STATE_DRAINING"
(respectively "JOB_STATE_CANCELLED"); it returns nil when that call succeeds and
the error of the call, unchanged, when it fails. -/
theorem delete_requests_policy_state (d : ResourceData) (config : Config)
    (P policy state : String)
    (hP : getProject d config = .ok P)
    (hpolicy : d.Get "on_delete" = .str policy)
    (htable : (policy = "drain" ∧ state = "JOB_STATE_DRAINING") ∨
      (policy = "cancel" ∧ state = "JOB_STATE_CANCELLED")) :
    (resourceDataflowJobDelete d config).calls
        = [.jobsUpdate P d.Id { Id := "", CurrentState := "", RequestedState := state }] ∧
    (∀ j, config.clientDataflow.jobsUpdate P d.Id
          { Id := "", CurrentState := "", RequestedState := state } = .ok j →
        (resourceDataflowJobDelete d config).outcome = .returned none) ∧
    (∀ e, config.clientDataflow.jobsUpdate P d.Id
          { Id := "", CurrentState := "", RequestedState := state } = .error e →
        (resourceDataflowJobDelete d config).outcome = .returned (some e)) := by
  have hmap : mapOnDelete policy = .ok state := by
    rcases htable with ⟨h1, h2⟩ | ⟨h1, h2⟩ <;> subst h1 <;> subst h2 <;> rfl
  unfold resourceDataflowJobDelete
  simp only [hP, hpolicy, Value.assertString, hmap]
  cases hupd : config.clientDataflow.jobsUpdate P d.Id
      { Id := "", CurrentState := "", RequestedState := state } with
  | error e => simp
  | ok j => simp

theorem delete_requests_policy_state_witness :
    getProject drainJob ⟨"my-project", refusingService⟩ = .ok "my-project" ∧
    (resourceDataflowJobDelete drainJob ⟨"my-project", refusingService⟩).calls
        = [.jobsUpdate "my-project" "job-1" ⟨"", "", "JOB_STATE_DRAINING"⟩] ∧
    (resourceDataflowJobDelete drainJob ⟨"my-project", refusingService⟩).outcome
        = .returned (some (.googleapi 404 "not found")) :=
  have h := delete_requests_policy_state drainJob ⟨"my-project", refusingService⟩
    "my-project" "drain" "JOB_STATE_DRAINING" rfl rfl (Or.inl ⟨rfl, rfl⟩)
  ⟨rfl, h.1, h.2.2 _ rfl⟩

/-- C4 as stated fails: project resolution comes first. With the unrecognized
policy "pause" and no project to resolve, `resourceDataflowJobDelete` returns the
error of the project resolution, not the one that names the policy. -/
theorem delete_unrecognized_policy_counterexample :
    ¬ (∀ (d : ResourceData) (config : Config) (p : String),
        d.Get "on_delete" = .str p → (∃ e, mapOnDelete p = .error e) →
        (∃ err, (resourceDataflowJobDelete d config).outcome = .returned (some err) ∧
          err.message = "Invalid `on_delete` policy: " ++ p) ∧
        (resourceDataflowJobDelete d config).calls = [] ∧
        (resourceDataflowJobDelete d config).d.id = d.id) := by
  intro h
  obtain ⟨⟨err, hout, hmsg⟩, -, -⟩ :=
    h pauseJob ⟨"", acceptingService⟩ "pause" rfl ⟨_, rfl⟩
  have hrun : (resourceDataflowJobDelete pauseJob ⟨"", acceptingService⟩).outcome
      = .returned (some (.errorString "project: required field is not set")) := rfl
  rw [hrun] at hout
  injection hout with hout
  injection hout with hout
  subst hout
  revert hmsg
  decide

/-- C4, amended: when the project resolves and the policy `p` is not recognized
by `mapOnDelete`, `resourceDataflowJobDelete` returns an error whose text is
"Invalid `on_delete` policy: " followed by `p`, issues no remote call and leaves
the resource data, the stored id included, as it was. -/
theorem delete_unrecognized_policy (d : ResourceData) (config : Config) (P p : String)
    (hP : getProject d config = .ok P)
    (hpolicy : d.Get "on_delete" = .str p)
    (hbad : ∃ e, mapOnDelete p = .error e) :
    (∃ err, (resourceDataflowJobDelete d config).outcome = .returned (some err) ∧
      err.message = "Invalid `on_delete` policy: " ++ p) ∧
    (resourceDataflowJobDelete d config).calls = [] ∧
    (resourceDataflowJobDelete d config).d = d := by
  obtain ⟨h1, h2, h3⟩ := (mapOnDelete_error_iff p).mp hbad
  have hmap := mapOnDelete_default_case p h1 h2 h3
  unfold resourceDataflowJobDelete
  simp only [hP, hpolicy, Value.assertString, hmap]
  exact ⟨⟨_, rfl, rfl⟩, trivial, trivial⟩

theorem delete_unrecognized_policy_witness :
    getProject pauseJob ⟨"my-project", acceptingService⟩ = .ok "my-project" ∧
    (∃ err, (resourceDataflowJobDelete pauseJob ⟨"my-project", acceptingService⟩).outcome
        = .returned (some err) ∧
      err.message = "Invalid `on_delete` policy: " ++ "pause") ∧
    (resourceDataflowJobDelete pauseJob ⟨"my-project", acceptingService⟩).calls = [] ∧
    (resourceDataflowJobDelete pauseJob ⟨"my-project", acceptingService⟩).d = pauseJob :=
  ⟨rfl, delete_unrecognized_policy pauseJob ⟨"my-project", acceptingService⟩
    "my-project" "pause" rfl rfl ⟨_, rfl⟩⟩

/-- C10: every `on_delete` value the validator of the schema accepts (exactly
"cancel" and "drain", compared case-sensitively), and the schema default, is
mapped by `mapOnDelete` without error to "JOB_STATE_CANCELLED" or to
"JOB_STATE_DRAINING". So with such a policy `resourceDataflowJobDelete` does not
take the invalid-policy branch (once the project resolves it reaches its one
`Jobs.Update`) and never requests "JOB_STATE_DONE". -/
theorem validated_policy_never_rejected (regexp : String → String → Bool) (p : String)
    (hvalid : validateFuncAccepts regexp "on_delete" p = true ∨
      schemaDefault "on_delete" = some p) :
    (p = "cancel" ∨ p = "drain") ∧
    (mapOnDelete p = .ok "JOB_STATE_CANCELLED" ∨ mapOnDelete p = .ok "JOB_STATE_DRAINING") ∧
    ∀ (d : ResourceData) (config : Config), d.Get "on_delete" = .str p →
      (∀ P, getProject d config = .ok P →
        ∃ job, (resourceDataflowJobDelete d config).calls = [.jobsUpdate P d.Id job] ∧
          (job.RequestedState = "JOB_STATE_CANCELLED" ∨
            job.RequestedState = "JOB_STATE_DRAINING")) ∧
      (∀ P i job, Call.jobsUpdate P i job ∈ (resourceDataflowJobDelete d config).calls →
        job.RequestedState ≠ "JOB_STATE_DONE") := by
  have hp : p = "cancel" ∨ p = "drain" := by
    rcases hvalid with h | h
    · rw [validateFuncAccepts_on_delete, StringInSlice_exact] at h
      simpa using h
    · have hdef : schemaDefault "on_delete" = some "drain" := rfl
      rw [hdef] at h
      injection h with h
      exact Or.inr h.symm
  have hmap : ∃ state, mapOnDelete p = .ok state ∧
      (state = "JOB_STATE_CANCELLED" ∨ state = "JOB_STATE_DRAINING") := by
    rcases hp with h | h <;> subst h
    · exact ⟨_, rfl, Or.inl rfl⟩
    · exact ⟨_, rfl, Or.inr rfl⟩
  obtain ⟨state, hstate, hcases⟩ := hmap
  refine ⟨hp, ?_, ?_⟩
  · rcases hcases with h | h <;> subst h
    · exact Or.inl hstate
    · exact Or.inr hstate
  · intro d config hpolicy
    have hrun : ∀ P, getProject d config = .ok P →
        (resourceDataflowJobDelete d config).calls
          = [.jobsUpdate P d.Id { Id := "", CurrentState := "", RequestedState := state }] := by
      intro P hP
      unfold resourceDataflowJobDelete
      simp only [hP, hpolicy, Value.assertString, hstate]
      cases config.clientDataflow.jobsUpdate P d.Id
          { Id := "", CurrentState := "", RequestedState := state } <;> rfl
    refine ⟨fun P hP => ⟨_, hrun P hP, hcases⟩, ?_⟩
    intro P i job hmem
    cases hP : getProject d config with
    | error err =>
      unfold resourceDataflowJobDelete at hmem
      simp [hP] at hmem
    | ok project =>
      rw [hrun project hP] at hmem
      simp only [List.mem_singleton] at hmem
      injection hmem with _ _ hjob
      subst hjob
      rcases hcases with h | h <;> subst h <;> decide

theorem validated_policy_never_rejected_witness :
    validateFuncAccepts (fun _ _ => false) "on_delete" "cancel" = true ∧
    validateFuncAccepts (fun _ _ => false) "on_delete" "Cancel" = false ∧
    (mapOnDelete "cancel" = .ok "JOB_STATE_CANCELLED" ∨
      mapOnDelete "cancel" = .ok "JOB_STATE_DRAINING") :=
  ⟨rfl, rfl, (validated_policy_never_rejected (fun _ _ => false) "cancel" (Or.inl rfl)).2.1⟩

/-! ## Read: claims C8 and C9 -/

/-- C8: with stored id `i` and resolved project `P`, when `Jobs.Get(P, i)` succeeds
with a job whose `CurrentState` is `s`, `resourceDataflowJobRead` returns nil, the
`state` attribute is `s` afterwards, and the stored id and every other attribute
are as before; `Jobs.Get(P, i)` is the one remote call. -/
theorem read_sets_state (d : ResourceData) (config : Config) (P : String) (job : Job)
    (hP : getProject d config = .ok P)
    (hget : config.clientDataflow.jobsGet P d.Id = .ok job) :
    (resourceDataflowJobRead d config).outcome = .returned none ∧
    (resourceDataflowJobRead d config).d.Get "state" = .str job.CurrentState ∧
    (resourceDataflowJobRead d config).d.Id = d.Id ∧
    (∀ k, k ≠ "state" → (resourceDataflowJobRead d config).d.Get k = d.Get k) ∧
    (resourceDataflowJobRead d config).calls = [.jobsGet P d.Id] := by
  rw [read_run_found d config P job hP hget]
  exact ⟨rfl, Get_Set_state _ _, rfl, fun k hk => Get_Set_other _ _ _ _ hk, rfl⟩

theorem read_sets_state_witness :
    getProject drainJob ⟨"my-project", acceptingService⟩ = .ok "my-project" ∧
    (resourceDataflowJobRead drainJob ⟨"my-project", acceptingService⟩).d.Get "state"
      = .str "JOB_STATE_RUNNING" ∧
    (resourceDataflowJobRead drainJob ⟨"my-project", acceptingService⟩).d.Id = "job-1" :=
  have h := read_sets_state drainJob ⟨"my-project", acceptingService⟩ "my-project"
    ⟨"job-1", "JOB_STATE_RUNNING", ""⟩ rfl rfl
  ⟨rfl, h.2.1, h.2.2.1⟩

/-- C9: when the `Jobs.Get` call of `resourceDataflowJobRead` fails, read returns
no error exactly when the failure is of the not-found class; in that case the
stored id is cleared and the attributes, `state` among them, are left alone;
for every other remote error read returns an error that is not nil and leaves
the resource data as it was. It is the one remote call of the read. -/
theorem read_get_failure (d : ResourceData) (config : Config) (P : String) (e : Error)
    (hP : getProject d config = .ok P)
    (hget : config.clientDataflow.jobsGet P d.Id = .error e) :
    ((resourceDataflowJobRead d config).outcome = .returned none ↔ isNotFound e = true) ∧
    (isNotFound e = true →
      (resourceDataflowJobRead d config).d.Id = "" ∧
      (resourceDataflowJobRead d config).d.attrs = d.attrs) ∧
    (isNotFound e = false →
      (∃ err, (resourceDataflowJobRead d config).outcome = .returned (some err)) ∧
      (resourceDataflowJobRead d config).d = d) ∧
    (resourceDataflowJobRead d config).calls = [.jobsGet P d.Id] := by
  rw [read_run_failed d config P e hP hget]
  cases hnf : isNotFound e with
  | true =>
    rw [handleNotFoundError_notFound e d _ hnf]
    simp [ResourceData.SetId, ResourceData.Id]
  | false =>
    rw [handleNotFoundError_other e d _ hnf]
    simp

theorem read_get_failure_witness :
    getProject drainJob ⟨"my-project", refusingService⟩ = .ok "my-project" ∧
    (resourceDataflowJobRead drainJob ⟨"my-project", refusingService⟩).outcome
      = .returned none ∧
    (resourceDataflowJobRead drainJob ⟨"my-project", refusingService⟩).d.Id = "" :=
  have h := read_get_failure drainJob ⟨"my-project", refusingService⟩ "my-project"
    (.googleapi 404 "not found") rfl rfl
  ⟨rfl, h.1.mpr rfl, (h.2.1 rfl).1⟩

/-! ## Create: claims C5, C6 and C7 -/

/-- C5 fails on the code: the client answers every create-from-template call
with the job id "2024-job-1", and `resourceDataflowJobCreate`, run on a
configuration the schema accepts, panics on line 90 before it calls the client:
no remote call is issued, no `Jobs.Get` follows and the stored id stays empty.
No resource data gets further: create never issues a call and never changes
the resource data. -/
theorem create_never_stores_remote_id :
    (∀ P request, acceptingService.templatesCreate P request
      = .ok ⟨"2024-job-1", "JOB_STATE_PENDING", ""⟩) ∧
    (resourceDataflowJobCreate declaredListJob ⟨"my-project", acceptingService⟩).outcome
      = .panicked ∧
    (resourceDataflowJobCreate declaredListJob ⟨"my-project", acceptingService⟩).calls = [] ∧
    (resourceDataflowJobCreate declaredListJob ⟨"my-project", acceptingService⟩).d.Id = "" ∧
    (∀ (d : ResourceData) (config : Config),
      (resourceDataflowJobCreate d config).calls = [] ∧
      (resourceDataflowJobCreate d config).d.Id = d.Id) :=
  ⟨fun _ _ => rfl, rfl, rfl, rfl, fun d config =>
    ⟨(create_issues_no_call d config).1,
      congrArg ResourceData.Id (create_issues_no_call d config).2.1⟩⟩

/-- C7 fails on the code: the client answers every create-from-template call
with the error 403, and `resourceDataflowJobCreate`, run on a configuration the
schema accepts, does not return that error: it panics on line 90 before it
calls the client. Whenever the project resolves, create panics. -/
theorem create_never_returns_remote_error :
    (∀ P request, refusingService.templatesCreate P request
      = .error (.googleapi 403 "permission denied")) ∧
    (resourceDataflowJobCreate declaredListJob ⟨"my-project", refusingService⟩).outcome
      = .panicked ∧
    (resourceDataflowJobCreate declaredListJob ⟨"my-project", refusingService⟩).outcome
      ≠ .returned (some (.googleapi 403 "permission denied")) ∧
    (resourceDataflowJobCreate declaredListJob ⟨"my-project", refusingService⟩).calls = [] ∧
    (∀ (d : ResourceData) (config : Config) (P : String), getProject d config = .ok P →
      (resourceDataflowJobCreate d config).outcome = .panicked) := by
  refine ⟨fun _ _ => rfl, rfl, ?_, rfl, ?_⟩
  · have h : (resourceDataflowJobCreate declaredListJob ⟨"my-project", refusingService⟩).outcome
        = .panicked := rfl
    rw [h]
    decide
  · intro d config P hP
    rcases (create_issues_no_call d config).2.2 with ⟨e, he, -⟩ | ⟨_, -, hout⟩
    · rw [hP] at he
      cases he
    · exact hout

/-- C6 fails on the code: on a configuration the schema accepts, the
`environment` key is a `TypeList` and `Get` hands out a list; the assertion to
`*schema.ResourceData` on line 90 panics and no `Templates.Create` is issued.
The same line reads "template_gcs_location" where the schema declares the
temp-location field of the block as "temp_gcs_location". -/
theorem create_declared_environment_panics :
    environmentBlockAccepted declaredEnvironment = true ∧
    (resourceDataflowJobCreate declaredJob ⟨"my-project", acceptingService⟩).outcome
      = .panicked ∧
    (resourceDataflowJobCreate declaredJob ⟨"my-project", acceptingService⟩).calls = [] ∧
    (resourceDataflowJobCreate declaredListJob ⟨"my-project", acceptingService⟩).outcome
      = .panicked ∧
    (resourceDataflowJobCreate declaredListJob ⟨"my-project", acceptingService⟩).calls = [] :=
  ⟨rfl, rfl, rfl, rfl, rfl⟩

end DataflowJob
